import Mathlib

/-!
Verification of the spatial partitioner and grid matcher of the task-geo
repository.

The development shallowly embeds the two algorithmic modules of the
repository:

- area_partition (src/task_geo/dataset_builders/nasa/area_partition.py):
  repeated k-means clustering with increasing cluster count until every
  cluster has radius at most 5, followed by construction of half-degree
  aligned bounding boxes around each cluster.  The external call to
  sklearn KMeans is modelled as an oracle supplying, for each attempted
  cluster count, the fitted cluster centers and the label array; the
  radii the source computes from those centers are supplied as rational
  parameters linked to the source formula through the predicate radii_ok
  (the source radius is a Euclidean norm, whose square is rational while
  the norm itself need not be).  The unbounded while loop is modelled
  with explicit fuel.
- match_grid_point and its snapping formula
  (src/task_geo/dataset_builders/nasa/nasa_connector.py), and
- osm_apply (src/task_geo/dataset_builders/osm/__init__.py), whose
  external geocoding calls are modelled as an oracle from queries to
  results or errors (an indexError models the IndexError raised by
  taking element zero of an empty provider response).

Coordinates are embedded as rationals; the floating point arithmetic of
the source is idealized as exact rational arithmetic.
-/

/-- A geographic point, one row of the deduplicated location table
restricted to the columns lat and lon. -/
structure Point where
  lat : ℚ
  lon : ℚ
deriving DecidableEq

/-- A bounding box as produced by area_partition: one row of the returned
array, in the order min lat, min lon, max lat, max lon. -/
structure BBox where
  min_lat : ℚ
  min_lon : ℚ
  max_lat : ℚ
  max_lon : ℚ
deriving DecidableEq

/-- Membership of a point in a bounding box. -/
def inBBox (p : Point) (b : BBox) : Prop :=
  b.min_lat ≤ p.lat ∧ p.lat ≤ b.max_lat ∧ b.min_lon ≤ p.lon ∧ p.lon ≤ b.max_lon

instance (p : Point) (b : BBox) : Decidable (inBBox p b) := by
  unfold inBBox; infer_instance

/-- Squared Euclidean distance between two points; the source computes
norm(el - cluster_centers[i]) and only the square of that norm is
rational. -/
def distSq (p c : Point) : ℚ :=
  (p.lat - c.lat) ^ 2 + (p.lon - c.lon) ^ 2

/-- Lines 56 to 59 of area_partition.py: the box around a cluster with
center (cx, cy) and radius r, rounded outward to half degrees. -/
def mkBBox (cx cy r : ℚ) : BBox :=
  { min_lat := (1 / 2) * (⌊2 * (cx - r)⌋ : ℚ)
    min_lon := (1 / 2) * (⌊2 * (cy - r)⌋ : ℚ)
    max_lat := (1 / 2) * (⌈2 * (cx + r)⌉ : ℚ)
    max_lon := (1 / 2) * (⌈2 * (cy + r)⌉ : ℚ) }

/-- Lines 61 to 63 of area_partition.py: widen a box that collapsed on
the latitude axis by half a degree on each side. -/
def widen_lat (b : BBox) : BBox :=
  if b.min_lat = b.max_lat then
    { b with min_lat := b.min_lat - 1 / 2, max_lat := b.max_lat + 1 / 2 }
  else b

/-- Lines 64 to 66 of area_partition.py: widen a box that collapsed on
the longitude axis by half a degree on each side. -/
def widen_lon (b : BBox) : BBox :=
  if b.min_lon = b.max_lon then
    { b with min_lon := b.min_lon - 1 / 2, max_lon := b.max_lon + 1 / 2 }
  else b

/-- The box the source stores for a cluster with center c and radius r:
the outward-rounded box, widened on every collapsed axis. -/
def clusterBox (c : Point) (r : ℚ) : BBox :=
  widen_lon (widen_lat (mkBBox c.lat c.lon r))

/-- A rational is aligned to the half-degree grid when it is an integer
multiple of one half. -/
def halfAligned (q : ℚ) : Prop := ∃ n : ℤ, q = (n : ℚ) / 2

/-- Line 33 of area_partition.py: one raw row of the location table, the
coordinate columns only; a missing coordinate (NaN) is a none. -/
def toPoint (row : Option ℚ × Option ℚ) : Option Point :=
  match row with
  | (some la, some lo) => some ⟨la, lo⟩
  | _ => none

/-- Line 33 of area_partition.py: drop duplicate rows, then drop rows
with a missing coordinate. -/
def unique_locations (rows : List (Option ℚ × Option ℚ)) : List Point :=
  rows.dedup.filterMap toPoint

/-- Result of one call of the external sklearn KMeans fit on the unique
locations: the array of cluster centers and the label array, one label
per location.  The randomized initialization of KMeans makes this data
an input of the model rather than a function of the points. -/
structure KMeansState where
  centers : List Point
  labels : List ℕ

/-- Number of clusters of a fitted state, the row count of the center
array. -/
def KMeansState.k (S : KMeansState) : ℕ := S.centers.length

/-- Well-formedness of a fitted state for n locations: one label per
location and every label a valid cluster index. -/
def KMeansState.wf (S : KMeansState) (n : ℕ) : Prop :=
  S.labels.length = n ∧ ∀ l ∈ S.labels, l < S.k

instance (S : KMeansState) (n : ℕ) : Decidable (S.wf n) := by
  unfold KMeansState.wf; infer_instance

/-- Center of cluster i; the default value is never reached on the index
range 0 to k - 1 used by the source. -/
def cluster_center (S : KMeansState) (i : ℕ) : Point :=
  S.centers.getD i ⟨0, 0⟩

/-- The member points of cluster i, in location order: the rows of
unique_locations selected by labels == i in lines 45 to 47. -/
def clusterMembers (pts : List Point) (labels : List ℕ) (i : ℕ) : List Point :=
  ((pts.zip labels).filter (fun pl => pl.2 == i)).map (fun pl => pl.1)

/-- Squared cluster radius: the maximum of the squared distances of the
members of cluster i to its center.  The source computes
cluster_radii[i] = max of norm(el - center) over the members el; a none
models the ValueError the Python max raises on an empty cluster. -/
def cluster_radiusSq (pts : List Point) (S : KMeansState) (i : ℕ) : Option ℚ :=
  ((clusterMembers pts S.labels i).map (fun p => distSq p (cluster_center S i))).max?

/-- Linking of a rational radius parameter to the squared radius the
source computes: whenever cluster i is nonempty, the square of r equals
its maximal squared member distance. -/
def radius_matches (o : Option ℚ) (r : ℚ) : Prop :=
  match o with
  | some q => r ^ 2 = q
  | none => True

instance (o : Option ℚ) (r : ℚ) : Decidable (radius_matches o r) := by
  cases o <;> simp only [radius_matches] <;> infer_instance

/-- The radii parameters are exactly the cluster radii of the source:
one per cluster, all nonnegative, and on every nonempty cluster the
square equals the maximal squared distance to the center. -/
def radii_ok (pts : List Point) (S : KMeansState) (r : List ℚ) : Prop :=
  r.length = S.k ∧
  ∀ i < S.k, 0 ≤ r.getD i 0 ∧ radius_matches (cluster_radiusSq pts S i) (r.getD i 0)

instance (pts : List Point) (S : KMeansState) (r : List ℚ) :
    Decidable (radii_ok pts S r) := by
  unfold radii_ok; infer_instance

/-- A converged k-means center is the centroid of its cluster; stated
multiplicatively to stay inside the rationals. -/
def isCentroid (c : Point) (l : List Point) : Prop :=
  c.lat * (l.length : ℚ) = (l.map Point.lat).sum ∧
  c.lon * (l.length : ℚ) = (l.map Point.lon).sum

instance (c : Point) (l : List Point) : Decidable (isCentroid c l) := by
  unfold isCentroid; infer_instance

/-- Every nonempty cluster has its center at its centroid, the fixed
point condition of the Lloyd iteration that sklearn KMeans converges
to. -/
def centers_ok (pts : List Point) (S : KMeansState) : Prop :=
  ∀ i < S.k, clusterMembers pts S.labels i ≠ [] →
    isCentroid (cluster_center S i) (clusterMembers pts S.labels i)

instance (pts : List Point) (S : KMeansState) : Decidable (centers_ok pts S) := by
  unfold centers_ok; infer_instance

/-- Line 51 of area_partition.py: the loop returns in the iteration whose
maximal cluster radius is at most 5; on the nonnegative source radii
this is equivalent to every squared radius being at most 25.  A false
also covers the empty cluster, on which the source raises instead of
returning. -/
def radius_ok (pts : List Point) (S : KMeansState) : Bool :=
  (List.range S.k).all (fun i =>
    match cluster_radiusSq pts S i with
    | some q => decide (q ≤ 25)
    | none => false)

/-- Lines 52 to 67 of area_partition.py: the array of boxes built from
the cluster centers and radii, one box per cluster. -/
def area_partition_boxes (S : KMeansState) (r : List ℚ) : List BBox :=
  (S.centers.zip r).map (fun cr => clusterBox cr.1 cr.2)

/-- One iteration of the while loop of area_partition: if the maximal
radius is small enough, return the boxes, otherwise continue. -/
def kmeans_iteration (pts : List Point) (S : KMeansState) (r : List ℚ) :
    Option (List BBox) :=
  if radius_ok pts S then some (area_partition_boxes S r) else none

/-- The external KMeans runs consumed by the loop of area_partition: for
every attempted cluster count k the fitted state and the cluster radii
the source derives from it. -/
structure KMeansOracle where
  state : ℕ → KMeansState
  radii : ℕ → List ℚ

/-- Lines 36 to 67 of area_partition.py: the while loop, trying cluster
counts k, k + 1 and so on; the fuel bounds the number of attempts in
this model of the unbounded source loop. -/
def area_partition_loop (pts : List Point) (O : KMeansOracle) :
    ℕ → ℕ → Option (List BBox)
  | _, 0 => none
  | k, fuel + 1 =>
    match kmeans_iteration pts (O.state k) (O.radii k) with
    | some bs => some bs
    | none => area_partition_loop pts O (k + 1) fuel

/-- The function area_partition: deduplicate and drop missing
coordinates, then run the clustering loop starting at one cluster. -/
def area_partition (rows : List (Option ℚ × Option ℚ)) (O : KMeansOracle)
    (fuel : ℕ) : Option (List BBox) :=
  area_partition_loop (unique_locations rows) O 1 fuel

/-- The Python 3 builtin round on an exact rational: round half to
even. -/
def pyRound (q : ℚ) : ℤ :=
  if q - ⌊q⌋ < 1 / 2 then ⌊q⌋
  else if 1 / 2 < q - ⌊q⌋ then ⌊q⌋ + 1
  else if ⌊q⌋ % 2 = 0 then ⌊q⌋ else ⌊q⌋ + 1

/-- Lines 119 to 120 of nasa_connector.py: the snapped half-degree grid
coordinate of a raw coordinate, 0.5 * round(2 * (x - 0.25)) + 0.25. -/
def snap (x : ℚ) : ℚ :=
  (1 / 2) * (pyRound (2 * (x - 1 / 4)) : ℚ) + 1 / 4

/-- One row of the grid dataset df_data: the date index, the cell
coordinates, and the measurement values of the parameter columns. -/
structure GridRow where
  date : ℕ
  lat : ℚ
  lon : ℚ
  values : List ℚ
deriving DecidableEq

/-- Lines 119 to 125 of nasa_connector.py, body of the location loop of
match_grid_point: select the grid rows at the snapped coordinate of the
location and overwrite their coordinates with the exact location. -/
def match_one (loc : Point) (df_data : List GridRow) : List GridRow :=
  (df_data.filter (fun row => row.lat == snap loc.lat && row.lon == snap loc.lon)).map
    (fun row => { row with lat := loc.lat, lon := loc.lon })

/-- Lines 117 to 126 of nasa_connector.py: match_grid_point concatenates
the per-location selections over all unique locations. -/
def match_grid_point (locations : List Point) (df_data : List GridRow) :
    List GridRow :=
  (locations.map (fun loc => match_one loc df_data)).flatten

/-- A query sent to the geocoding provider by osm_connector: either the
structured keyword form or the free-text address form. -/
inductive OSMQuery where
  | structured (country : String) (region sub_region city : Option String)
  | address (parts : List String)
deriving DecidableEq

/-- Failure of a geocoding call: indexError models the IndexError raised
by response.json()[0] on an empty result list, otherError any other
exception (network failure, malformed response). -/
inductive OSMError where
  | indexError
  | otherError
deriving DecidableEq

/-- Formatted geocoding result of osm_formatter; a none field models a
NaN. -/
structure OSMResult where
  lon : Option ℚ
  lat : Option ℚ
  bbox : Option (List ℚ)
deriving DecidableEq

/-- The NaN-filled sentinel produced at line 183 of the osm module after
both lookups fail. -/
def nanResult : OSMResult := ⟨none, none, none⟩

/-- One row of the dataset passed to osm_apply: country plus optional
region, sub_region and city (a none models a NaN entry). -/
structure OSMRow where
  country : String
  region : Option String
  sub_region : Option String
  city : Option String
deriving DecidableEq

/-- Lines 160 to 169 of the osm module: the structured query attempted
first, with the keyword set chosen by the most specific non-missing
field. -/
def structuredQuery (row : OSMRow) : OSMQuery :=
  if row.city.isSome then
    .structured row.country row.region row.sub_region row.city
  else if row.sub_region.isSome then
    .structured row.country row.region row.sub_region none
  else if row.region.isSome then
    .structured row.country row.region none none
  else
    .structured row.country none none none

/-- Lines 172 to 181 of the osm module: the free-text address query built
as fallback, joining the non-missing fields from most to least
specific. -/
def addressQuery (row : OSMRow) : OSMQuery :=
  if row.city.isSome then
    .address [row.city.getD "", row.sub_region.getD "", row.region.getD "", row.country]
  else if row.sub_region.isSome then
    .address [row.sub_region.getD "", row.region.getD "", row.country]
  else if row.region.isSome then
    .address [row.region.getD "", row.country]
  else
    .address [row.country]

/-- Lines 159 to 184 of the osm module, osm_apply: try the structured
query; on IndexError retry once with the address query; on a second
IndexError return the NaN sentinel; any other exception propagates.
The external osm_geolocation call chain is the oracle geo. -/
def osm_apply (geo : OSMQuery → Except OSMError OSMResult) (row : OSMRow) :
    Except OSMError OSMResult :=
  match geo (structuredQuery row) with
  | .ok gl => .ok gl
  | .error .indexError =>
    match geo (addressQuery row) with
    | .ok gl => .ok gl
    | .error .indexError => .ok nanResult
    | .error .otherError => .error .otherError
  | .error .otherError => .error .otherError

/-! Concrete instances used to exercise the embedding: location tables,
KMeans oracles consistent with the semantics of the external fit, grid
datasets and geocoding oracles. -/

/-- A location table with a single location at the origin. -/
def rows1 : List (Option ℚ × Option ℚ) := [(some 0, some 0)]

/-- The KMeans run on rows1: one cluster holding the single point, center
on the point, radius zero. -/
def O1 : KMeansOracle := ⟨fun _ => ⟨[⟨0, 0⟩], [0]⟩, fun _ => [0]⟩

/-- A location table with two locations at latitudes -4.75 and 5.25 on
the prime meridian. -/
def rows2 : List (Option ℚ × Option ℚ) :=
  [(some (-19/4), some 0), (some (21/4), some 0)]

/-- The KMeans run on rows2 with one cluster: the center is the centroid
(0.25, 0) of the two points and both lie at distance exactly 5 from it,
so the radius is 5 and the stopping rule of line 51 accepts. -/
def O2 : KMeansOracle := ⟨fun _ => ⟨[⟨1/4, 0⟩], [0, 0]⟩, fun _ => [5]⟩

/-- A location table with three collinear locations at latitudes 0, 7 and
14. -/
def rows3 : List (Option ℚ × Option ℚ) :=
  [(some 0, some 0), (some 7, some 0), (some 14, some 0)]

/-- One possible KMeans history on rows3: with one cluster the radius is
7, too big; with two clusters the fit groups the first two points
(center (3.5, 0), radius 3.5) and isolates the third (radius 0).  Both
states are Lloyd fixed points with centroid centers. -/
def Oa : KMeansOracle :=
  ⟨fun k => if k ≤ 1 then ⟨[⟨7, 0⟩], [0, 0, 0]⟩ else ⟨[⟨7/2, 0⟩, ⟨14, 0⟩], [0, 0, 1]⟩,
   fun k => if k ≤ 1 then [7] else [7/2, 0]⟩

/-- Another possible KMeans history on rows3, differing only in the
random initialization of the second fit: it isolates the first point
(radius 0) and groups the last two (center (10.5, 0), radius 3.5).
Also a Lloyd fixed point with centroid centers, and with the same
within-cluster sum of squares as the second fit of Oa. -/
def Ob : KMeansOracle :=
  ⟨fun k => if k ≤ 1 then ⟨[⟨7, 0⟩], [0, 0, 0]⟩ else ⟨[⟨0, 0⟩, ⟨21/2, 0⟩], [0, 1, 1]⟩,
   fun k => if k ≤ 1 then [7] else [0, 7/2]⟩

/-- A grid dataset with a single row at the half-degree cell
(10.25, 20.25) carrying one measurement value. -/
def grid1 : List GridRow := [⟨0, 41/4, 81/4, [17]⟩]

/-- The location of the grid snap example of the specification. -/
def loc1 : Point := ⟨103/10, 201/10⟩

/-- A geocoding oracle whose structured lookup returns an empty result
list (IndexError) while the free-text address lookup succeeds. -/
def geoRetry : OSMQuery → Except OSMError OSMResult :=
  fun q =>
    match q with
    | .structured _ _ _ _ => .error .indexError
    | .address _ => .ok ⟨some 2, some 1, none⟩

/-- A dataset row with only the country field present. -/
def rowFr : OSMRow := ⟨"France", none, none, none⟩

/-! Support lemmas about list maxima, the clustering loop, and the box
geometry. -/

/-- Rewriting of the ceiling through the floor, used to evaluate concrete
ceilings. -/
theorem ceil_via_floor (a : ℚ) : (⌈a⌉ : ℤ) = -⌊-a⌋ := by
  rw [Int.floor_neg, neg_neg]

theorem le_of_max?_eq_some {l : List ℚ} {q x : ℚ} (h : l.max? = some q)
    (hx : x ∈ l) : x ≤ q :=
  (List.max?_le_iff (fun _ _ _ => max_le_iff) h).mp (le_refl q) x hx

theorem mem_of_max?_eq_some {l : List ℚ} {q : ℚ} (h : l.max? = some q) :
    q ∈ l :=
  List.max?_mem (fun a b => max_choice a b) h

theorem area_partition_loop_eq_some {pts : List Point} {O : KMeansOracle} :
    ∀ {fuel k : ℕ} {bs : List BBox},
    area_partition_loop pts O k fuel = some bs →
    ∃ j, k ≤ j ∧ j < k + fuel ∧ radius_ok pts (O.state j) = true ∧
      bs = area_partition_boxes (O.state j) (O.radii j) := by
  intro fuel
  induction fuel with
  | zero => intro k bs h; simp [area_partition_loop] at h
  | succ f ih =>
    intro k bs h
    rw [area_partition_loop] at h
    cases hc : kmeans_iteration pts (O.state k) (O.radii k) with
    | some bs0 =>
      rw [hc] at h
      unfold kmeans_iteration at hc
      by_cases hr : radius_ok pts (O.state k) = true
      · rw [if_pos hr] at hc
        refine ⟨k, le_refl k, by omega, hr, ?_⟩
        cases h; cases hc; rfl
      · rw [if_neg hr] at hc; cases hc
    | none =>
      rw [hc] at h
      obtain ⟨j, hj1, hj2, hj3, hj4⟩ := ih h
      exact ⟨j, by omega, by omega, hj3, hj4⟩

theorem area_partition_loop_isSome {pts : List Point} {O : KMeansOracle} :
    ∀ {fuel k j : ℕ}, k ≤ j → j < k + fuel →
    radius_ok pts (O.state j) = true →
    (area_partition_loop pts O k fuel).isSome := by
  intro fuel
  induction fuel with
  | zero => intro k j h1 h2 _; omega
  | succ f ih =>
    intro k j h1 h2 h3
    rw [area_partition_loop]
    cases hc : kmeans_iteration pts (O.state k) (O.radii k) with
    | some bs0 => simp
    | none =>
      have hkj : k ≠ j := by
        intro he
        unfold kmeans_iteration at hc
        rw [he, if_pos h3] at hc
        cases hc
      exact ih (by omega) (by omega) h3

theorem radius_ok_spec {pts : List Point} {S : KMeansState}
    (h : radius_ok pts S = true) {i : ℕ} (hi : i < S.k) :
    ∃ q, cluster_radiusSq pts S i = some q ∧ q ≤ 25 := by
  unfold radius_ok at h
  rw [List.all_eq_true] at h
  have hh := h i (List.mem_range.mpr hi)
  cases hc : cluster_radiusSq pts S i with
  | none => rw [hc] at hh; simp at hh
  | some q =>
    rw [hc] at hh
    simp only [decide_eq_true_eq] at hh
    exact ⟨q, rfl, hh⟩

theorem inBBox_widen_lat {p : Point} {b : BBox} (h : inBBox p b) :
    inBBox p (widen_lat b) := by
  obtain ⟨h1, h2, h3, h4⟩ := h
  unfold widen_lat
  split_ifs with hc
  · exact ⟨by simp; linarith, by simp; linarith, h3, h4⟩
  · exact ⟨h1, h2, h3, h4⟩

theorem inBBox_widen_lon {p : Point} {b : BBox} (h : inBBox p b) :
    inBBox p (widen_lon b) := by
  obtain ⟨h1, h2, h3, h4⟩ := h
  unfold widen_lon
  split_ifs with hc
  · exact ⟨h1, h2, by simp; linarith, by simp; linarith⟩
  · exact ⟨h1, h2, h3, h4⟩

theorem inBBox_mkBBox {p c : Point} {r : ℚ}
    (hlat1 : -r ≤ p.lat - c.lat) (hlat2 : p.lat - c.lat ≤ r)
    (hlon1 : -r ≤ p.lon - c.lon) (hlon2 : p.lon - c.lon ≤ r) :
    inBBox p (mkBBox c.lat c.lon r) := by
  have f1 := Int.floor_le (2 * (c.lat - r))
  have f2 := Int.le_ceil (2 * (c.lat + r))
  have f3 := Int.floor_le (2 * (c.lon - r))
  have f4 := Int.le_ceil (2 * (c.lon + r))
  exact ⟨by simp [mkBBox]; linarith, by simp [mkBBox]; linarith,
    by simp [mkBBox]; linarith, by simp [mkBBox]; linarith⟩

theorem inBBox_clusterBox {p c : Point} {r : ℚ}
    (hlat1 : -r ≤ p.lat - c.lat) (hlat2 : p.lat - c.lat ≤ r)
    (hlon1 : -r ≤ p.lon - c.lon) (hlon2 : p.lon - c.lon ≤ r) :
    inBBox p (clusterBox c r) :=
  inBBox_widen_lon (inBBox_widen_lat (inBBox_mkBBox hlat1 hlat2 hlon1 hlon2))

theorem bounds_of_sq_le {x r : ℚ} (hr : 0 ≤ r) (h : x ^ 2 ≤ r ^ 2) :
    -r ≤ x ∧ x ≤ r := by
  constructor <;> nlinarith [sq_nonneg (x + r), sq_nonneg (x - r)]

theorem getD_eq_get {α : Type} (l : List α) (d : α) {i : ℕ} (h : i < l.length) :
    l.getD i d = l.get ⟨i, h⟩ := by
  rw [List.getD_eq_getElem?_getD, List.getElem?_eq_getElem h]
  rfl

theorem mem_clusterMembers {pts : List Point} {labels : List ℕ} {p : Point}
    {l : ℕ} (h : (p, l) ∈ pts.zip labels) : p ∈ clusterMembers pts labels l :=
  List.mem_map.mpr ⟨(p, l), List.mem_filter.mpr ⟨h, by simp⟩, rfl⟩

theorem zip_get_mem {pts : List Point} {labels : List ℕ}
    (hlen : labels.length = pts.length) {idx : ℕ} (hidx : idx < pts.length) :
    (pts.get ⟨idx, hidx⟩, labels.get ⟨idx, by omega⟩) ∈ pts.zip labels := by
  have hz : idx < (pts.zip labels).length := by
    rw [List.length_zip]; omega
  have hmem := List.get_mem (pts.zip labels) idx hz
  rw [List.get_eq_getElem, List.getElem_zip] at hmem
  simpa [List.get_eq_getElem] using hmem

theorem clusterBox_mem_boxes {S : KMeansState} {r : List ℚ}
    (hlen : r.length = S.k) {i : ℕ} (hi : i < S.k) :
    clusterBox (cluster_center S i) (r.getD i 0) ∈ area_partition_boxes S r := by
  unfold area_partition_boxes
  have hck : i < S.centers.length := hi
  have hrk : i < r.length := by omega
  have hz : i < (S.centers.zip r).length := by
    rw [List.length_zip]; omega
  apply List.mem_map.mpr
  refine ⟨(S.centers.zip r).get ⟨i, hz⟩, List.get_mem _ _ _, ?_⟩
  rw [List.get_eq_getElem, List.getElem_zip]
  have h1 : cluster_center S i = S.centers.get ⟨i, hck⟩ := getD_eq_get _ _ hck
  have h2 : r.getD i 0 = r.get ⟨i, hrk⟩ := getD_eq_get _ _ hrk
  rw [h1, h2]
  simp [List.get_eq_getElem]

/-- C1.  Coverage: for every input location table, every unique
non-missing location lies inside at least one of the bounding boxes
returned by area_partition, for any well-formed sequence of KMeans
results whose radii agree with the radii the source computes. -/
theorem c1_coverage (rows : List (Option ℚ × Option ℚ)) (O : KMeansOracle)
    (fuel : ℕ) (bs : List BBox)
    (hwf : ∀ k ≤ fuel, (O.state k).wf (unique_locations rows).length)
    (hrad : ∀ k ≤ fuel, radii_ok (unique_locations rows) (O.state k) (O.radii k))
    (hret : area_partition rows O fuel = some bs)
    (p : Point) (hp : p ∈ unique_locations rows) :
    ∃ b ∈ bs, inBBox p b := by
  obtain ⟨j, hj1, hj2, hjr, hjb⟩ := area_partition_loop_eq_some hret
  have hjf : j ≤ fuel := by omega
  obtain ⟨hlen, hlab⟩ := hwf j hjf
  obtain ⟨hrlen, hri⟩ := hrad j hjf
  obtain ⟨idx, hget⟩ := List.mem_iff_get.mp hp
  have hidx2 : (idx : ℕ) < (O.state j).labels.length := by
    rw [hlen]; exact idx.isLt
  have hzip : (p, (O.state j).labels.get ⟨idx, hidx2⟩) ∈
      (unique_locations rows).zip (O.state j).labels := by
    have := @zip_get_mem (unique_locations rows) (O.state j).labels
      (by rw [hlen]) (idx : ℕ) idx.isLt
    rw [show (unique_locations rows).get ⟨(idx : ℕ), idx.isLt⟩ = p from hget] at this
    exact this
  set l := (O.state j).labels.get ⟨idx, hidx2⟩ with hldef
  have hlk : l < (O.state j).k := hlab l (List.get_mem _ _ _)
  have hpm : p ∈ clusterMembers (unique_locations rows) (O.state j).labels l :=
    mem_clusterMembers hzip
  obtain ⟨q, hq, hq25⟩ := radius_ok_spec hjr hlk
  have hd : distSq p (cluster_center (O.state j) l) ≤ q :=
    le_of_max?_eq_some hq (List.mem_map.mpr ⟨p, hpm, rfl⟩)
  obtain ⟨hr0, hrm⟩ := hri l hlk
  have hr2 : ((O.radii j).getD l 0) ^ 2 = q := by
    rw [hq] at hrm
    simpa [radius_matches] using hrm
  have hlatsq : (p.lat - (cluster_center (O.state j) l).lat) ^ 2 ≤
      ((O.radii j).getD l 0) ^ 2 := by
    have hn := sq_nonneg (p.lon - (cluster_center (O.state j) l).lon)
    unfold distSq at hd
    linarith [hr2]
  have hlonsq : (p.lon - (cluster_center (O.state j) l).lon) ^ 2 ≤
      ((O.radii j).getD l 0) ^ 2 := by
    have hn := sq_nonneg (p.lat - (cluster_center (O.state j) l).lat)
    unfold distSq at hd
    linarith [hr2]
  obtain ⟨ha1, ha2⟩ := bounds_of_sq_le hr0 hlatsq
  obtain ⟨hb1, hb2⟩ := bounds_of_sq_le hr0 hlonsq
  refine ⟨clusterBox (cluster_center (O.state j) l) ((O.radii j).getD l 0),
    ?_, inBBox_clusterBox ha1 ha2 hb1 hb2⟩
  rw [hjb]
  exact clusterBox_mem_boxes hrlen hlk

/-! Evaluation of the embedding on the concrete instances. -/

theorem uloc1 : unique_locations rows1 = [⟨0, 0⟩] := by
  decide

theorem uloc2 : unique_locations rows2 = [⟨-19/4, 0⟩, ⟨21/4, 0⟩] := by
  norm_num [unique_locations, rows2, toPoint, List.dedup_cons_of_not_mem,
    Prod.ext_iff, List.filterMap_cons, List.filterMap_nil]

theorem area_partition_rows1 :
    area_partition rows1 O1 1 = some [⟨-1/2, -1/2, 1/2, 1/2⟩] := by
  norm_num [area_partition, area_partition_loop, kmeans_iteration, radius_ok,
    area_partition_boxes, cluster_radiusSq, clusterMembers, cluster_center,
    distSq, clusterBox, mkBBox, widen_lat, widen_lon, ceil_via_floor,
    List.max?_cons', O1, KMeansState.k, List.range_succ, List.range_zero,
    List.all_append, List.all_cons, List.all_nil, -List.all_eq_true, uloc1]

theorem O1_wf : ∀ k ≤ 1, (O1.state k).wf (unique_locations rows1).length := by
  intro k _
  rw [uloc1]
  refine ⟨rfl, ?_⟩
  intro l hl
  simp only [O1, List.mem_singleton] at hl
  simp [O1, KMeansState.k, hl]

theorem O1_radii_ok :
    ∀ k ≤ 1, radii_ok (unique_locations rows1) (O1.state k) (O1.radii k) := by
  intro k _
  norm_num [radii_ok, O1, KMeansState.k, uloc1, cluster_radiusSq,
    clusterMembers, cluster_center, distSq, radius_matches, Nat.lt_one_iff,
    List.max?_cons']

/-- Witness for C1 at the single-location table rows1. -/
theorem c1_coverage_witness :
    ∃ b ∈ [BBox.mk (-1/2) (-1/2) (1/2) (1/2)], inBBox ⟨0, 0⟩ b :=
  c1_coverage rows1 O1 1 [⟨-1/2, -1/2, 1/2, 1/2⟩] O1_wf O1_radii_ok
    area_partition_rows1 ⟨0, 0⟩ (by rw [uloc1]; exact List.mem_singleton.mpr rfl)

/-- C2.  The claim says every box returned by area_partition has latitude
and longitude extent at most 10 degrees, as does the docstring of
area_partition and the contract of its consumer nasa_data_area.  The
code violates this: on the two locations (-4.75, 0) and (5.25, 0) the
single cluster has its center at the centroid (0.25, 0) and radius
exactly 5, the stopping rule radius <= 5 accepts, and the outward
rounding of line 56 and 58 produces the box
(-5, -5, 5.5, 5) with latitude extent 10.5 > 10.  The KMeans state used
is the one the external fit produces here: with one cluster the
converged center is the centroid, as certified by the centers_ok
conjunct. -/
theorem c2_size_bound_violation :
    (O2.state 1).wf (unique_locations rows2).length ∧
    radii_ok (unique_locations rows2) (O2.state 1) (O2.radii 1) ∧
    centers_ok (unique_locations rows2) (O2.state 1) ∧
    area_partition rows2 O2 1 = some [⟨-5, -5, 11/2, 5⟩] ∧
    ∀ b ∈ [BBox.mk (-5) (-5) (11/2) 5], 10 < b.max_lat - b.min_lat := by
  refine ⟨?_, ?_, ?_, ?_, by intro b hb; rw [List.mem_singleton.mp hb]; norm_num⟩
  · refine ⟨by rw [uloc2]; rfl, ?_⟩
    intro l hl
    simp only [O2, List.mem_cons, List.not_mem_nil, or_false] at hl
    rcases hl with rfl | rfl <;> simp [O2, KMeansState.k]
  · norm_num [radii_ok, O2, KMeansState.k, uloc2, cluster_radiusSq,
      clusterMembers, cluster_center, distSq, radius_matches, Nat.lt_one_iff,
      List.max?_cons']
  · norm_num [centers_ok, O2, KMeansState.k, uloc2, clusterMembers,
      cluster_center, isCentroid, Nat.lt_one_iff]
  · norm_num [area_partition, area_partition_loop, kmeans_iteration, radius_ok,
      area_partition_boxes, cluster_radiusSq, clusterMembers, cluster_center,
      distSq, clusterBox, mkBBox, widen_lat, widen_lon, ceil_via_floor,
      List.max?_cons', O2, KMeansState.k, List.range_succ, List.range_zero,
      List.all_append, List.all_cons, List.all_nil, -List.all_eq_true, uloc2]

/-! Alignment and non-degeneracy of the produced boxes. -/

theorem halfAligned_sub_half {q : ℚ} (h : halfAligned q) :
    halfAligned (q - 1 / 2) := by
  obtain ⟨n, rfl⟩ := h
  exact ⟨n - 1, by push_cast; ring⟩

theorem halfAligned_add_half {q : ℚ} (h : halfAligned q) :
    halfAligned (q + 1 / 2) := by
  obtain ⟨n, rfl⟩ := h
  exact ⟨n + 1, by push_cast; ring⟩

theorem halfAligned_half_int (n : ℤ) : halfAligned ((1 / 2) * (n : ℚ)) :=
  ⟨n, by ring⟩

/-- The four edges of a box are aligned. -/
def alignedBox (b : BBox) : Prop :=
  halfAligned b.min_lat ∧ halfAligned b.min_lon ∧
  halfAligned b.max_lat ∧ halfAligned b.max_lon

theorem alignedBox_mkBBox (cx cy r : ℚ) : alignedBox (mkBBox cx cy r) :=
  ⟨halfAligned_half_int _, halfAligned_half_int _,
   halfAligned_half_int _, halfAligned_half_int _⟩

theorem alignedBox_widen_lat {b : BBox} (h : alignedBox b) :
    alignedBox (widen_lat b) := by
  obtain ⟨h1, h2, h3, h4⟩ := h
  unfold widen_lat
  split_ifs
  · exact ⟨halfAligned_sub_half h1, h2, halfAligned_add_half h3, h4⟩
  · exact ⟨h1, h2, h3, h4⟩

theorem alignedBox_widen_lon {b : BBox} (h : alignedBox b) :
    alignedBox (widen_lon b) := by
  obtain ⟨h1, h2, h3, h4⟩ := h
  unfold widen_lon
  split_ifs
  · exact ⟨h1, halfAligned_sub_half h2, h3, halfAligned_add_half h4⟩
  · exact ⟨h1, h2, h3, h4⟩

theorem alignedBox_clusterBox (c : Point) (r : ℚ) : alignedBox (clusterBox c r) :=
  alignedBox_widen_lon (alignedBox_widen_lat (alignedBox_mkBBox c.lat c.lon r))

/-- C6.  Alignment: every edge coordinate of every bounding box returned
by area_partition is an integer multiple of one half, for every input
location table and any KMeans oracle. -/
theorem c6_alignment (rows : List (Option ℚ × Option ℚ)) (O : KMeansOracle)
    (fuel : ℕ) (bs : List BBox)
    (hret : area_partition rows O fuel = some bs) :
    ∀ b ∈ bs, halfAligned b.min_lat ∧ halfAligned b.min_lon ∧
      halfAligned b.max_lat ∧ halfAligned b.max_lon := by
  obtain ⟨j, _, _, _, hjb⟩ := area_partition_loop_eq_some hret
  subst hjb
  intro b hb
  obtain ⟨cr, _, rfl⟩ := List.mem_map.mp hb
  exact alignedBox_clusterBox cr.1 cr.2

/-- Witness for C6 at the single-location table rows1. -/
theorem c6_alignment_witness :
    halfAligned (BBox.mk (-1/2) (-1/2) (1/2) (1/2)).min_lat ∧
    halfAligned (BBox.mk (-1/2) (-1/2) (1/2) (1/2)).min_lon ∧
    halfAligned (BBox.mk (-1/2) (-1/2) (1/2) (1/2)).max_lat ∧
    halfAligned (BBox.mk (-1/2) (-1/2) (1/2) (1/2)).max_lon :=
  c6_alignment rows1 O1 1 [⟨-1/2, -1/2, 1/2, 1/2⟩] area_partition_rows1
    ⟨-1/2, -1/2, 1/2, 1/2⟩ (List.mem_singleton.mpr rfl)

theorem widen_lat_lon_fields (b : BBox) :
    (widen_lat b).min_lon = b.min_lon ∧ (widen_lat b).max_lon = b.max_lon := by
  unfold widen_lat
  split_ifs <;> exact ⟨rfl, rfl⟩

theorem widen_lon_lat_fields (b : BBox) :
    (widen_lon b).min_lat = b.min_lat ∧ (widen_lon b).max_lat = b.max_lat := by
  unfold widen_lon
  split_ifs <;> exact ⟨rfl, rfl⟩

theorem widen_lat_lt {b : BBox} (h : b.min_lat ≤ b.max_lat) :
    (widen_lat b).min_lat < (widen_lat b).max_lat := by
  unfold widen_lat
  split_ifs with hc
  · simp only
    linarith
  · exact lt_of_le_of_ne h hc

theorem widen_lon_lt {b : BBox} (h : b.min_lon ≤ b.max_lon) :
    (widen_lon b).min_lon < (widen_lon b).max_lon := by
  unfold widen_lon
  split_ifs with hc
  · simp only
    linarith
  · exact lt_of_le_of_ne h hc

theorem widen_lat_collapse {b : BBox} (h : b.min_lat = b.max_lat) :
    (widen_lat b).max_lat - (widen_lat b).min_lat = 1 := by
  unfold widen_lat
  rw [if_pos h, h]
  simp only
  ring

theorem widen_lon_collapse {b : BBox} (h : b.min_lon = b.max_lon) :
    (widen_lon b).max_lon - (widen_lon b).min_lon = 1 := by
  unfold widen_lon
  rw [if_pos h, h]
  simp only
  ring

theorem mkBBox_lat_le {cx cy r : ℚ} (hr : 0 ≤ r) :
    (mkBBox cx cy r).min_lat ≤ (mkBBox cx cy r).max_lat := by
  simp only [mkBBox]
  have f1 := Int.floor_le (2 * (cx - r))
  have f2 := Int.le_ceil (2 * (cx + r))
  linarith

theorem mkBBox_lon_le {cx cy r : ℚ} (hr : 0 ≤ r) :
    (mkBBox cx cy r).min_lon ≤ (mkBBox cx cy r).max_lon := by
  simp only [mkBBox]
  have f1 := Int.floor_le (2 * (cy - r))
  have f2 := Int.le_ceil (2 * (cy + r))
  linarith

theorem clusterBox_nondeg {c : Point} {r : ℚ} (hr : 0 ≤ r) :
    (clusterBox c r).min_lat < (clusterBox c r).max_lat ∧
    (clusterBox c r).min_lon < (clusterBox c r).max_lon := by
  unfold clusterBox
  constructor
  · rw [(widen_lon_lat_fields _).1, (widen_lon_lat_fields _).2]
    exact widen_lat_lt (mkBBox_lat_le hr)
  · apply widen_lon_lt
    rw [(widen_lat_lon_fields _).1, (widen_lat_lon_fields _).2]
    exact mkBBox_lon_le hr

theorem clusterBox_collapse_lat {c : Point} {r : ℚ}
    (h : (mkBBox c.lat c.lon r).min_lat = (mkBBox c.lat c.lon r).max_lat) :
    (clusterBox c r).max_lat - (clusterBox c r).min_lat = 1 := by
  unfold clusterBox
  rw [(widen_lon_lat_fields _).1, (widen_lon_lat_fields _).2]
  exact widen_lat_collapse h

theorem clusterBox_collapse_lon {c : Point} {r : ℚ}
    (h : (mkBBox c.lat c.lon r).min_lon = (mkBBox c.lat c.lon r).max_lon) :
    (clusterBox c r).max_lon - (clusterBox c r).min_lon = 1 := by
  unfold clusterBox
  apply widen_lon_collapse
  rw [(widen_lat_lon_fields _).1, (widen_lat_lon_fields _).2]
  exact h

theorem mem_boxes_inv {S : KMeansState} {r : List ℚ} {b : BBox}
    (hb : b ∈ area_partition_boxes S r) :
    ∃ i, i < S.k ∧ i < r.length ∧
      b = clusterBox (cluster_center S i) (r.getD i 0) := by
  unfold area_partition_boxes at hb
  obtain ⟨cr, hcr, hbe⟩ := List.mem_map.mp hb
  obtain ⟨i, hi, hget⟩ := List.mem_iff_getElem.mp hcr
  rw [List.length_zip, lt_min_iff] at hi
  obtain ⟨hik, hir⟩ := hi
  rw [List.getElem_zip] at hget
  refine ⟨i, hik, hir, ?_⟩
  rw [← hbe, ← hget]
  have h1 : cluster_center S i = S.centers.get ⟨i, hik⟩ := getD_eq_get _ _ hik
  have h2 : r.getD i 0 = r.get ⟨i, hir⟩ := getD_eq_get _ _ hir
  rw [h1, h2]
  simp [List.get_eq_getElem]

/-- C7.  Non-degeneracy: no bounding box returned by area_partition has
zero width or zero height, and whenever the outward-rounded box
collapses on an axis it is widened by half a degree on each side, so
that axis has extent exactly one degree. -/
theorem c7_nondegeneracy (rows : List (Option ℚ × Option ℚ)) (O : KMeansOracle)
    (fuel : ℕ) (bs : List BBox)
    (hrad : ∀ k ≤ fuel, radii_ok (unique_locations rows) (O.state k) (O.radii k))
    (hret : area_partition rows O fuel = some bs) :
    (∀ b ∈ bs, b.min_lat < b.max_lat ∧ b.min_lon < b.max_lon) ∧
    (∀ (c : Point) (r : ℚ), 0 ≤ r →
      ((mkBBox c.lat c.lon r).min_lat = (mkBBox c.lat c.lon r).max_lat →
        (clusterBox c r).max_lat - (clusterBox c r).min_lat = 1) ∧
      ((mkBBox c.lat c.lon r).min_lon = (mkBBox c.lat c.lon r).max_lon →
        (clusterBox c r).max_lon - (clusterBox c r).min_lon = 1)) := by
  constructor
  · obtain ⟨j, hj1, hj2, hjr, hjb⟩ := area_partition_loop_eq_some hret
    subst hjb
    intro b hb
    obtain ⟨i, hik, hir, rfl⟩ := mem_boxes_inv hb
    obtain ⟨hrlen, hri⟩ := hrad j (by omega)
    exact clusterBox_nondeg (hri i hik).1
  · intro c r hr
    exact ⟨clusterBox_collapse_lat, clusterBox_collapse_lon⟩

/-- Witness for C7 at the single-location table rows1, with the collapse
case exercised on the degenerate cluster at the origin. -/
theorem c7_nondegeneracy_witness :
    ((BBox.mk (-1/2) (-1/2) (1/2) (1/2)).min_lat <
        (BBox.mk (-1/2) (-1/2) (1/2) (1/2)).max_lat ∧
      (BBox.mk (-1/2) (-1/2) (1/2) (1/2)).min_lon <
        (BBox.mk (-1/2) (-1/2) (1/2) (1/2)).max_lon) ∧
    (clusterBox ⟨0, 0⟩ 0).max_lat - (clusterBox ⟨0, 0⟩ 0).min_lat = 1 ∧
    (clusterBox ⟨0, 0⟩ 0).max_lon - (clusterBox ⟨0, 0⟩ 0).min_lon = 1 := by
  have h := c7_nondegeneracy rows1 O1 1 [⟨-1/2, -1/2, 1/2, 1/2⟩] O1_radii_ok
    area_partition_rows1
  refine ⟨h.1 ⟨-1/2, -1/2, 1/2, 1/2⟩ (List.mem_singleton.mpr rfl), ?_, ?_⟩
  · exact (h.2 ⟨0, 0⟩ 0 (le_refl 0)).1 (by norm_num [mkBBox])
  · exact (h.2 ⟨0, 0⟩ 0 (le_refl 0)).2 (by norm_num [mkBBox])

/-! The grid snapping formula and the matcher. -/

theorem snap_lat_example : snap (103/10) = 41/4 := by
  simp only [snap, pyRound]
  norm_num

theorem snap_lon_example : snap (201/10) = 81/4 := by
  simp only [snap, pyRound]
  norm_num

/-- C3 counterexample.  The claim states that the location
(10.3, 20.1) snaps to the grid coordinate (10.25, 19.75); the snapping
formula of the source maps longitude 20.1 to 20.25, not 19.75. -/
theorem c3_snap_counterexample :
    snap (201/10) = 81/4 ∧ (81/4 : ℚ) ≠ 79/4 :=
  ⟨snap_lon_example, by norm_num⟩

/-- C3 amended.  Grid snap correctness: the snapped grid coordinate is
0.5 * round(2 * (x - 0.25)) + 0.25 applied to latitude and longitude;
in particular the location (10.3, 20.1) snaps to (10.25, 20.25). -/
theorem c3_grid_snap :
    (∀ x : ℚ, snap x = (1/2) * ((pyRound (2 * (x - 1/4))) : ℚ) + 1/4) ∧
    snap (103/10) = 41/4 ∧ snap (201/10) = 81/4 :=
  ⟨fun _ => rfl, snap_lat_example, snap_lon_example⟩

/-- C4.  Match relabeling: for every location and grid dataset, the rows
produced for a location are exactly the grid rows whose coordinates
equal the snapped coordinate of the location, in order; each output row
carries the exact location coordinates in place of the grid cell
coordinates while its date and all measurement values are unchanged. -/
theorem c4_match_relabeling (loc : Point) (df : List GridRow) :
    match_grid_point [loc] df = match_one loc df ∧
    (match_one loc df).length =
      (df.filter (fun row => row.lat == snap loc.lat && row.lon == snap loc.lon)).length ∧
    ∀ (i : ℕ) (h1 : i < (match_one loc df).length)
      (h2 : i < (df.filter (fun row => row.lat == snap loc.lat && row.lon == snap loc.lon)).length),
      ((match_one loc df).get ⟨i, h1⟩).lat = loc.lat ∧
      ((match_one loc df).get ⟨i, h1⟩).lon = loc.lon ∧
      ((match_one loc df).get ⟨i, h1⟩).date =
        ((df.filter (fun row => row.lat == snap loc.lat && row.lon == snap loc.lon)).get ⟨i, h2⟩).date ∧
      ((match_one loc df).get ⟨i, h1⟩).values =
        ((df.filter (fun row => row.lat == snap loc.lat && row.lon == snap loc.lon)).get ⟨i, h2⟩).values := by
  refine ⟨by simp [match_grid_point], by simp [match_one], ?_⟩
  intro i h1 h2
  unfold match_one
  simp only [List.get_eq_getElem, List.getElem_map]
  exact ⟨trivial, trivial, trivial, trivial⟩

theorem match_one_loc1_eval : match_one loc1 grid1 = [⟨0, 103/10, 201/10, [17]⟩] := by
  unfold match_one grid1
  rw [List.filter_cons_of_pos]
  · simp [loc1]
  · simp only [loc1, Bool.and_eq_true, beq_iff_eq]
    exact ⟨snap_lat_example.symm, snap_lon_example.symm⟩

theorem filter_grid1_eval :
    grid1.filter (fun row => row.lat == snap loc1.lat && row.lon == snap loc1.lon) = grid1 := by
  unfold grid1
  rw [List.filter_cons_of_pos]
  · rfl
  · simp only [loc1, Bool.and_eq_true, beq_iff_eq]
    exact ⟨snap_lat_example.symm, snap_lon_example.symm⟩

theorem match_one_loc1_len : 0 < (match_one loc1 grid1).length := by
  rw [match_one_loc1_eval]
  simp

theorem filter_grid1_len :
    0 < (grid1.filter (fun row => row.lat == snap loc1.lat && row.lon == snap loc1.lon)).length := by
  rw [filter_grid1_eval]
  simp [grid1]

/-- Witness for C4 at the location (10.3, 20.1) and a grid dataset with
one row at (10.25, 20.25). -/
theorem c4_match_relabeling_witness :
    ((match_one loc1 grid1).get ⟨0, match_one_loc1_len⟩).lat = loc1.lat ∧
    ((match_one loc1 grid1).get ⟨0, match_one_loc1_len⟩).lon = loc1.lon ∧
    ((match_one loc1 grid1).get ⟨0, match_one_loc1_len⟩).date =
      ((grid1.filter (fun row => row.lat == snap loc1.lat && row.lon == snap loc1.lon)).get
        ⟨0, filter_grid1_len⟩).date ∧
    ((match_one loc1 grid1).get ⟨0, match_one_loc1_len⟩).values =
      ((grid1.filter (fun row => row.lat == snap loc1.lat && row.lon == snap loc1.lon)).get
        ⟨0, filter_grid1_len⟩).values :=
  (c4_match_relabeling loc1 grid1).2.2 0 match_one_loc1_len filter_grid1_len

/-- C5.  Unmatched location behavior: a location whose snapped coordinate
matches no grid row contributes zero output rows, and no error is
raised: the empty selection is produced silently. -/
theorem c5_unmatched (loc : Point) (df : List GridRow)
    (h : ∀ row ∈ df, ¬(row.lat = snap loc.lat ∧ row.lon = snap loc.lon)) :
    match_one loc df = [] ∧ match_grid_point [loc] df = [] := by
  have he : df.filter (fun row => row.lat == snap loc.lat && row.lon == snap loc.lon) = [] := by
    rw [List.filter_eq_nil_iff]
    intro row hrow
    simpa [Bool.and_eq_true, beq_iff_eq] using h row hrow
  constructor
  · unfold match_one
    rw [he]
    rfl
  · simp [match_grid_point, match_one, he]

/-- Witness for C5: the origin snaps to (0.25, 0.25), matching no row of
the grid dataset grid1. -/
theorem c5_unmatched_witness :
    match_one ⟨0, 0⟩ grid1 = [] ∧ match_grid_point [⟨0, 0⟩] grid1 = [] := by
  apply c5_unmatched
  intro row hrow
  rw [List.mem_singleton.mp hrow]
  simp only [snap, pyRound]
  norm_num


/-! Dependence of area_partition on the randomized KMeans fit, and
determinism once the fit is fixed. -/

theorem uloc3 : unique_locations rows3 = [⟨0, 0⟩, ⟨7, 0⟩, ⟨14, 0⟩] := by
  decide

theorem nonneg_sqrt_unique {a b : ℚ} (ha : 0 ≤ a) (hb : 0 ≤ b)
    (h : a ^ 2 = b ^ 2) : a = b := by
  rcases lt_trichotomy a b with hlt | he | hgt
  · exfalso; nlinarith
  · exact he
  · exfalso; nlinarith

theorem wf3_S1 :
    (⟨[⟨7, 0⟩], [0, 0, 0]⟩ : KMeansState).wf (unique_locations rows3).length := by
  rw [uloc3]; decide

theorem wf3_Sa2 :
    (⟨[⟨7/2, 0⟩, ⟨14, 0⟩], [0, 0, 1]⟩ : KMeansState).wf (unique_locations rows3).length := by
  rw [uloc3]
  exact ⟨rfl, by decide⟩

theorem wf3_Sb2 :
    (⟨[⟨0, 0⟩, ⟨21/2, 0⟩], [0, 1, 1]⟩ : KMeansState).wf (unique_locations rows3).length := by
  rw [uloc3]
  exact ⟨rfl, by decide⟩

theorem radii3_S1 : radii_ok (unique_locations rows3) ⟨[⟨7, 0⟩], [0, 0, 0]⟩ [7] := by
  norm_num [radii_ok, KMeansState.k, cluster_radiusSq, clusterMembers,
    cluster_center, distSq, radius_matches, Nat.lt_one_iff, List.max?_cons', uloc3]

theorem radii3_Sa2 :
    radii_ok (unique_locations rows3) ⟨[⟨7/2, 0⟩, ⟨14, 0⟩], [0, 0, 1]⟩ [7/2, 0] := by
  norm_num [radii_ok, KMeansState.k, cluster_radiusSq, clusterMembers,
    cluster_center, distSq, radius_matches, List.max?_cons', uloc3,
    Nat.lt_succ_iff, Nat.le_one_iff_eq_zero_or_eq_one]

theorem radii3_Sb2 :
    radii_ok (unique_locations rows3) ⟨[⟨0, 0⟩, ⟨21/2, 0⟩], [0, 1, 1]⟩ [0, 7/2] := by
  norm_num [radii_ok, KMeansState.k, cluster_radiusSq, clusterMembers,
    cluster_center, distSq, radius_matches, List.max?_cons', uloc3,
    Nat.lt_succ_iff, Nat.le_one_iff_eq_zero_or_eq_one]

theorem cent3_S1 : centers_ok (unique_locations rows3) ⟨[⟨7, 0⟩], [0, 0, 0]⟩ := by
  norm_num [centers_ok, KMeansState.k, clusterMembers, cluster_center,
    isCentroid, Nat.lt_one_iff, uloc3]

theorem cent3_Sa2 :
    centers_ok (unique_locations rows3) ⟨[⟨7/2, 0⟩, ⟨14, 0⟩], [0, 0, 1]⟩ := by
  norm_num [centers_ok, KMeansState.k, clusterMembers, cluster_center,
    isCentroid, uloc3, Nat.lt_succ_iff, Nat.le_one_iff_eq_zero_or_eq_one]

theorem cent3_Sb2 :
    centers_ok (unique_locations rows3) ⟨[⟨0, 0⟩, ⟨21/2, 0⟩], [0, 1, 1]⟩ := by
  norm_num [centers_ok, KMeansState.k, clusterMembers, cluster_center,
    isCentroid, uloc3, Nat.lt_succ_iff, Nat.le_one_iff_eq_zero_or_eq_one]

theorem area_partition_rows3_Oa :
    area_partition rows3 Oa 2 = some [⟨0, -7/2, 7, 7/2⟩, ⟨27/2, -1/2, 29/2, 1/2⟩] := by
  norm_num [area_partition, area_partition_loop, kmeans_iteration, radius_ok,
    area_partition_boxes, cluster_radiusSq, clusterMembers, cluster_center,
    distSq, clusterBox, mkBBox, widen_lat, widen_lon, ceil_via_floor,
    List.max?_cons', Oa, KMeansState.k, List.range_succ, List.range_zero,
    List.all_append, List.all_cons, List.all_nil, -List.all_eq_true, uloc3]

theorem area_partition_rows3_Ob :
    area_partition rows3 Ob 2 = some [⟨-1/2, -1/2, 1/2, 1/2⟩, ⟨7, -7/2, 14, 7/2⟩] := by
  norm_num [area_partition, area_partition_loop, kmeans_iteration, radius_ok,
    area_partition_boxes, cluster_radiusSq, clusterMembers, cluster_center,
    distSq, clusterBox, mkBBox, widen_lat, widen_lon, ceil_via_floor,
    List.max?_cons', Ob, KMeansState.k, List.range_succ, List.range_zero,
    List.all_append, List.all_cons, List.all_nil, -List.all_eq_true, uloc3]

/-- C8 counterexample.  Two KMeans oracle histories on the same input
table rows3, both consistent with the source radius computation
(radii_ok), both with well-formed labels and centroid centers (the
Lloyd fixed point condition of a converged fit), differing only in
which of two equal-inertia local optima the randomized second fit
reaches, produce different bounding box sets: the output of
area_partition is not a function of its input alone. -/
theorem c8_random_state_counterexample :
    (∀ k ≤ 2, (Oa.state k).wf (unique_locations rows3).length ∧
      (Ob.state k).wf (unique_locations rows3).length) ∧
    (∀ k ≤ 2, radii_ok (unique_locations rows3) (Oa.state k) (Oa.radii k) ∧
      radii_ok (unique_locations rows3) (Ob.state k) (Ob.radii k)) ∧
    (∀ k ≤ 2, centers_ok (unique_locations rows3) (Oa.state k) ∧
      centers_ok (unique_locations rows3) (Ob.state k)) ∧
    area_partition rows3 Oa 2 = some [⟨0, -7/2, 7, 7/2⟩, ⟨27/2, -1/2, 29/2, 1/2⟩] ∧
    area_partition rows3 Ob 2 = some [⟨-1/2, -1/2, 1/2, 1/2⟩, ⟨7, -7/2, 14, 7/2⟩] ∧
    BBox.mk 0 (-7/2) 7 (7/2) ∈ [BBox.mk 0 (-7/2) 7 (7/2), BBox.mk (27/2) (-1/2) (29/2) (1/2)] ∧
    BBox.mk 0 (-7/2) 7 (7/2) ∉ [BBox.mk (-1/2) (-1/2) (1/2) (1/2), BBox.mk 7 (-7/2) 14 (7/2)] := by
  refine ⟨?_, ?_, ?_, area_partition_rows3_Oa, area_partition_rows3_Ob,
    List.mem_cons_self _ _, ?_⟩
  · intro k hk
    interval_cases k
    · exact ⟨wf3_S1, wf3_S1⟩
    · exact ⟨wf3_S1, wf3_S1⟩
    · exact ⟨wf3_Sa2, wf3_Sb2⟩
  · intro k hk
    interval_cases k
    · exact ⟨radii3_S1, radii3_S1⟩
    · exact ⟨radii3_S1, radii3_S1⟩
    · exact ⟨radii3_Sa2, radii3_Sb2⟩
  · intro k hk
    interval_cases k
    · exact ⟨cent3_S1, cent3_S1⟩
    · exact ⟨cent3_S1, cent3_S1⟩
    · exact ⟨cent3_Sa2, cent3_Sb2⟩
  · norm_num [List.mem_cons, List.not_mem_nil, BBox.mk.injEq]

/-- C8 amended.  Determinism given the fit: the output of the
box-building phase is a function of the input points and the KMeans
clustering alone; once the fitted state is fixed and every cluster is
nonempty, the radii are uniquely determined by the source formula and
two runs produce identical boxes.  The residual nondeterminism of
area_partition is exactly the dependence on the randomized KMeans
initialization exhibited by the counterexample. -/
theorem c8_deterministic_given_fit (pts : List Point) (S : KMeansState)
    (r r2 : List ℚ)
    (hne : ∀ i < S.k, (cluster_radiusSq pts S i).isSome = true)
    (h1 : radii_ok pts S r) (h2 : radii_ok pts S r2) :
    r = r2 ∧ area_partition_boxes S r = area_partition_boxes S r2 ∧
    kmeans_iteration pts S r = kmeans_iteration pts S r2 := by
  obtain ⟨hl1, hp1⟩ := h1
  obtain ⟨hl2, hp2⟩ := h2
  have hr : r = r2 := by
    apply List.ext_getElem (by omega)
    intro i hi1 hi2
    have hik : i < S.k := by omega
    obtain ⟨q, hq⟩ := Option.isSome_iff_exists.mp (hne i hik)
    obtain ⟨ha1, hm1⟩ := hp1 i hik
    obtain ⟨ha2, hm2⟩ := hp2 i hik
    rw [hq] at hm1 hm2
    simp only [radius_matches] at hm1 hm2
    have he : r.getD i 0 = r2.getD i 0 :=
      nonneg_sqrt_unique ha1 ha2 (by rw [hm1, hm2])
    rw [getD_eq_get _ _ hi1, getD_eq_get _ _ hi2] at he
    simpa [List.get_eq_getElem] using he
  exact ⟨hr, by rw [hr], by rw [hr]⟩

theorem O1_radiusSq_isSome :
    ∀ i < (O1.state 1).k,
      (cluster_radiusSq (unique_locations rows1) (O1.state 1) i).isSome = true := by
  intro i hi
  have hi0 : i = 0 := by
    simpa [O1, KMeansState.k, Nat.lt_one_iff] using hi
  subst hi0
  rw [show cluster_radiusSq (unique_locations rows1) (O1.state 1) 0 = some 0 by
    norm_num [cluster_radiusSq, clusterMembers, cluster_center, distSq,
      List.max?_cons', O1, uloc1]]
  rfl

/-- Witness for the amended C8 on the single-point fit of rows1. -/
theorem c8_deterministic_given_fit_witness :
    ([0] : List ℚ) = [0] ∧
    area_partition_boxes (O1.state 1) [0] = area_partition_boxes (O1.state 1) [0] ∧
    kmeans_iteration (unique_locations rows1) (O1.state 1) [0] =
      kmeans_iteration (unique_locations rows1) (O1.state 1) [0] :=
  c8_deterministic_given_fit (unique_locations rows1) (O1.state 1) [0] [0]
    O1_radiusSq_isSome (O1_radii_ok 1 (le_refl 1)) (O1_radii_ok 1 (le_refl 1))

/-! Error handling of the geocoding helper. -/

/-- C9 counterexample.  A geocoding oracle whose structured lookup fails
with an empty result list (IndexError): the claim says the failure
propagates to the caller as an error with no local recovery, but
osm_apply retries with the free-text address query and the caller
receives its successful result instead of an error. -/
theorem c9_no_propagation_counterexample :
    geoRetry (structuredQuery rowFr) = .error .indexError ∧
    osm_apply geoRetry rowFr = .ok ⟨some 2, some 1, none⟩ :=
  ⟨rfl, rfl⟩

/-- C9 amended.  When a structured geocoding lookup fails with an empty
result set (IndexError), osm_apply does not propagate the failure: it
retries once with the free-text address query, returns that result on
success, returns the NaN sentinel if the retry also raises IndexError,
and propagates only failures other than IndexError. -/
theorem c9_fallback (geo : OSMQuery → Except OSMError OSMResult) (row : OSMRow)
    (h1 : geo (structuredQuery row) = .error .indexError) :
    (∀ gl, geo (addressQuery row) = .ok gl → osm_apply geo row = .ok gl) ∧
    (geo (addressQuery row) = .error .indexError →
      osm_apply geo row = .ok nanResult) ∧
    (geo (addressQuery row) = .error .otherError →
      osm_apply geo row = .error .otherError) := by
  unfold osm_apply
  rw [h1]
  refine ⟨?_, ?_, ?_⟩
  · intro gl h2
    rw [h2]
  · intro h2
    rw [h2]
  · intro h2
    rw [h2]

/-- Witness for the amended C9 on the oracle geoRetry. -/
theorem c9_fallback_witness : osm_apply geoRetry rowFr = .ok ⟨some 2, some 1, none⟩ :=
  (c9_fallback geoRetry rowFr rfl).1 ⟨some 2, some 1, none⟩ rfl

/-! Termination of the partitioning loop. -/

/-- C10.  Termination: on a table with at least one unique non-missing
location, once the cluster count reaches the number n of unique
locations the fit puts every location alone in its cluster with the
converged center on it, every squared cluster radius is 0, the radius
test of line 51 passes, and the loop returns within n iterations. -/
theorem c10_termination (rows : List (Option ℚ × Option ℚ)) (O : KMeansOracle)
    (hn : 0 < (unique_locations rows).length)
    (hk : (O.state (unique_locations rows).length).k = (unique_locations rows).length)
    (hsing : ∀ i < (unique_locations rows).length,
      ∃ p, clusterMembers (unique_locations rows)
          (O.state (unique_locations rows).length).labels i = [p] ∧
        cluster_center (O.state (unique_locations rows).length) i = p) :
    (area_partition rows O (unique_locations rows).length).isSome = true ∧
    ∀ i < (unique_locations rows).length,
      cluster_radiusSq (unique_locations rows)
        (O.state (unique_locations rows).length) i = some 0 := by
  have hrad0 : ∀ i < (unique_locations rows).length,
      cluster_radiusSq (unique_locations rows)
        (O.state (unique_locations rows).length) i = some 0 := by
    intro i hi
    obtain ⟨p, hm, hc⟩ := hsing i hi
    unfold cluster_radiusSq
    rw [hm, hc]
    simp [distSq, List.max?_cons']
  refine ⟨?_, hrad0⟩
  have hro : radius_ok (unique_locations rows)
      (O.state (unique_locations rows).length) = true := by
    unfold radius_ok
    rw [List.all_eq_true]
    intro i hi
    rw [List.mem_range, hk] at hi
    rw [hrad0 i hi]
    simp only [decide_eq_true_eq]
    norm_num
  exact area_partition_loop_isSome (le_refl _ |>.trans (by omega)) (by omega) hro

/-- Witness for C10 at the single-location table rows1. -/
theorem c10_termination_witness :
    (area_partition rows1 O1 (unique_locations rows1).length).isSome = true ∧
    cluster_radiusSq (unique_locations rows1)
      (O1.state (unique_locations rows1).length) 0 = some 0 := by
  have h := c10_termination rows1 O1
    (by rw [uloc1]; decide)
    (by simp [uloc1, O1, KMeansState.k])
    (by
      intro i hi
      rw [uloc1] at hi ⊢
      simp only [List.length_singleton, Nat.lt_one_iff] at hi
      subst hi
      exact ⟨⟨0, 0⟩, by decide, by decide⟩)
  exact ⟨h.1, h.2 0 (by rw [uloc1]; decide)⟩
